import Mathlib

/-!
Verification of the KweliVote fingerprint template engine
(`kwelivote-app/backend/iso_fingerprint_template_app`).

This file is a shallow embedding, in Lean 4, of the pure computational core
of the pipeline: the stabilizer, the canonicalizer and its angle-diversity
redistributor, the quantizer, the ISO template codec, the coordinate/angle
repair operation, the multi-sample fuser, and the Bozorth3 matcher adapter's
input validation.  Python machine integers are modelled as `ℤ`/`ℕ` (Python's
`%` on a positive modulus is `Int.emod`, `//` is floor division, `int(...)`
truncates toward zero); NumPy float arithmetic is modelled exactly where the
source only manipulates dyadic rationals and integers (all bin centers,
variations and grid offsets in this code are multiples of 1/4, so angles are
represented in exact quarter-degree integer units where needed); external
collaborators (sklearn's DBSCAN, the BOZORTH3 scorer) are either modelled
from the spec or abstracted as oracle parameters.
-/

/-- A minutia point `(x, y, theta)` as the Python code passes it around:
a tuple of (unbounded) integers. -/
abbrev Pt : Type := ℤ × ℤ × ℤ

/-- Python `int(a / b)`-style truncating division toward zero (the behavior
of `int()` applied to an exact quotient), for a positive divisor. -/
def tdiv (a b : ℤ) : ℤ := if 0 ≤ a then a / b else -((-a) / b)

/-- Fuel-driven integer square root: `isqrtGo n fuel k` increments `k`
while `(k+1)^2 ≤ n`.  With fuel `n` this computes `⌊√n⌋`, which is the value
of NumPy's `np.sqrt(...).astype(int)` on a nonnegative integer. -/
def isqrtGo (n : ℕ) : ℕ → ℕ → ℕ
  | 0, k => k
  | fuel + 1, k => if (k + 1) * (k + 1) ≤ n then isqrtGo n fuel (k + 1) else k

/-- `⌊√n⌋`, kernel-computable (structural recursion on fuel). -/
def isqrt (n : ℕ) : ℕ := isqrtGo n n 0

/-- The lexicographic order on `(x, y, theta)` triples used by every
`list.sort(key=lambda p: (p[0], p[1], p[2]))` call in the pipeline. -/
def lexRel (a b : Pt) : Prop :=
  a.1 < b.1 ∨ (a.1 = b.1 ∧ (a.2.1 < b.2.1 ∨ (a.2.1 = b.2.1 ∧ a.2.2 ≤ b.2.2)))

instance : DecidableRel lexRel := fun a b => by unfold lexRel; infer_instance

instance : IsTotal Pt lexRel := by
  constructor
  intro a b
  unfold lexRel
  omega

instance : IsTrans Pt lexRel := by
  constructor
  intro a b c
  unfold lexRel
  omega

/-- `stable_points.sort(key=lambda point: (point[0], point[1], point[2]))`:
a stable sort by the lexicographic `(x, y, theta)` key. -/
def sortLex (l : List Pt) : List Pt := l.insertionSort lexRel

/-- `int(np.median(arr))` for an integer array: NumPy's median of a sorted
copy (middle element for odd length, mean of the two middle elements for
even length), truncated toward zero by `int()`. -/
def npMedianInt (l : List ℤ) : ℤ :=
  let s := l.insertionSort (· ≤ ·)
  if l.length % 2 = 1 then s.getD (l.length / 2) 0
  else tdiv (s.getD (l.length / 2 - 1) 0 + s.getD (l.length / 2) 0) 2

/-- The stabilizer's fingerprint center
`(int(np.median(points[:,0])), int(np.median(points[:,1])))`
(`stabilize_template`, `fingerprint_matching.py` lines 176-177 /
`views.py` lines 187-188). -/
def medianCenter (pts : List Pt) : ℤ × ℤ :=
  (npMedianInt (pts.map fun p => p.1), npMedianInt (pts.map fun p => p.2.1))

/-- Integer distance from the center:
`np.sqrt((x-cx)**2 + (y-cy)**2).astype(int)`. -/
def distTo (c : ℤ × ℤ) (p : Pt) : ℕ :=
  isqrt ((p.1 - c.1) ^ 2 + (p.2.1 - c.2) ^ 2).toNat

/-- The stabilizer's fixed-radius outlier filter:
`inliers = distances <= max_distance` with `max_distance = 200`
(`stabilize_template` step 2). -/
def inliersOf (pts : List Pt) : List Pt :=
  pts.filter fun p => distTo (medianCenter pts) p ≤ 200

/-- The deterministic synthetic padding progression
`(300 + 10*i, 300 + 10*i, (i*20) % 256)` for pad index `i`
(`stabilize_template` step 3, padding branch). -/
def synthPad (k : ℕ) : List Pt :=
  (List.range k).map fun i : ℕ =>
    ((300 + 10 * (i : ℤ)), (300 + 10 * (i : ℤ)), (20 * (i : ℤ)) % 256)

/-- Sorting the retained points by distance from the center
(`np.argsort(filtered_distances)` followed by indexing; modelled with a
stable sort — NumPy's default argsort is an unstable introsort, so only the
order among equal distances may differ, which no claim here depends on). -/
def distSort (pts : List Pt) (l : List Pt) : List Pt :=
  l.insertionSort fun a b => distTo (medianCenter pts) a ≤ distTo (medianCenter pts) b

/-- `stabilize_template(minutiae_points)` (`fingerprint_matching.py`
lines 156-219, identical to `views.py` lines 167-230): drop points farther
than 200 from the integer median center; if more than 40 remain keep the 40
closest to the center, if fewer remain pad with the fixed synthetic
progression; finally sort by `(x, y, theta)`. -/
def stabilize_template (pts : List Pt) : List Pt :=
  if pts = [] then []
  else
    sortLex
      (if 40 < (inliersOf pts).length then (distSort pts (inliersOf pts)).take 40
       else if (inliersOf pts).length < 40 then
         inliersOf pts ++ synthPad (40 - (inliersOf pts).length)
       else inliersOf pts)

/-- The coordinate/angle repair operation applied at boundary crossings
(mask to 14 bits as in `quantize_minutiae` lines 355-360, clamp into the
500×500 profile, and reduce the angle into the matcher's `[0,180)` domain as
in `post` lines 746-748): `x,y ← clamp(x & 0x3FFF)`, `theta ← theta % 180`.
Python's `&` and `%` on arbitrary ints are `emod` by `2^14` and `180`. -/
def repair (p : Pt) : Pt :=
  (min 499 (max 0 (p.1 % 16384)),
   min 499 (max 0 (p.2.1 % 16384)),
   p.2.2 % 180)

theorem synthPad_length (k : ℕ) : (synthPad k).length = k := by
  rw [synthPad, List.length_map, List.length_range]

/-- C2: Repair idempotence: applying the repair operation twice gives the
same result as applying it once, for every integer point. -/
theorem repair_idempotent (p : Pt) : repair (repair p) = repair p := by
  obtain ⟨x, y, t⟩ := p
  unfold repair
  refine Prod.ext ?_ (Prod.ext ?_ ?_) <;> simp only
  · have h1 : (0 : ℤ) ≤ min 499 (max 0 (x % 16384)) := by omega
    have h2 : min 499 (max 0 (x % 16384)) < 16384 := by omega
    rw [Int.emod_eq_of_lt h1 h2]
    omega
  · have h1 : (0 : ℤ) ≤ min 499 (max 0 (y % 16384)) := by omega
    have h2 : min 499 (max 0 (y % 16384)) < 16384 := by omega
    rw [Int.emod_eq_of_lt h1 h2]
    omega
  · omega

theorem stabilize_length_eq (pts : List Pt) (h : pts ≠ []) :
    (stabilize_template pts).length = 40 := by
  unfold stabilize_template
  rw [if_neg h, sortLex, List.length_insertionSort]
  split_ifs with h1 h2
  · rw [List.length_take, distSort, List.length_insertionSort]
    omega
  · rw [List.length_append, synthPad_length]
    omega
  · omega

theorem stabilize_sorted (pts : List Pt) :
    List.Sorted lexRel (stabilize_template pts) := by
  unfold stabilize_template
  by_cases h : pts = []
  · rw [if_pos h]
    exact List.sorted_nil
  · rw [if_neg h]
    exact List.sorted_insertionSort lexRel _

/-- C6: Stabilized cardinality invariant: for every non-empty input list the
stabilizer returns exactly 40 points, sorted ascending by `(x, y, theta)`,
whatever the count after outlier removal. -/
theorem stabilize_count_and_sorted (pts : List Pt) (h : pts ≠ []) :
    (stabilize_template pts).length = 40 ∧
    List.Sorted lexRel (stabilize_template pts) :=
  ⟨stabilize_length_eq pts h, stabilize_sorted pts⟩

set_option maxRecDepth 8000 in
/-- C6 witness: the invariant evaluated on the concrete one-point input
`[(10, 20, 30)]`. -/
theorem stabilize_count_and_sorted_witness :
    ([((10 : ℤ), (20 : ℤ), (30 : ℤ))] ≠ ([] : List Pt)) ∧
    ((stabilize_template [((10 : ℤ), (20 : ℤ), (30 : ℤ))]).length = 40 ∧
      List.Sorted lexRel (stabilize_template [((10 : ℤ), (20 : ℤ), (30 : ℤ))])) :=
  ⟨by decide, stabilize_count_and_sorted _ (by decide)⟩

set_option maxRecDepth 8000 in
/-- C3 counterexample: on the input `[(400, 0, 0)]` the single real point
survives the outlier filter, yet the first element of the stabilizer's
output is the synthetic point `(300, 300, 0)`, not the real point — the
final `(x, y, theta)` sort interleaves synthetic pad points before real
ones, so "the first points of the output are the real ones" fails. -/
theorem stabilize_first_points_not_real :
    inliersOf [((400 : ℤ), (0 : ℤ), (0 : ℤ))] = [((400 : ℤ), (0 : ℤ), (0 : ℤ))] ∧
    (stabilize_template [((400 : ℤ), (0 : ℤ), (0 : ℤ))]).take 1 =
      [((300 : ℤ), (300 : ℤ), (0 : ℤ))] ∧
    (stabilize_template [((400 : ℤ), (0 : ℤ), (0 : ℤ))]).take 1 ≠
      [((400 : ℤ), (0 : ℤ), (0 : ℤ))] := by
  decide

/-- C3 (amended): with fewer than 40 points surviving the outlier filter,
the stabilizer's output has exactly 40 points and is a permutation of the
real (inlier) points together with the synthetic progression
`(300+10i, 300+10i, 20i mod 256)`, the whole output being sorted by
`(x, y, theta)` — real points need not come first. -/
theorem stabilize_padding_sorted_perm (pts : List Pt) (h : pts ≠ [])
    (hr : (inliersOf pts).length < 40) :
    (stabilize_template pts).Perm
      (inliersOf pts ++ synthPad (40 - (inliersOf pts).length)) ∧
    (stabilize_template pts).length = 40 ∧
    List.Sorted lexRel (stabilize_template pts) := by
  refine ⟨?_, stabilize_length_eq pts h, stabilize_sorted pts⟩
  unfold stabilize_template
  rw [if_neg h, if_neg (by omega), if_pos hr]
  exact List.perm_insertionSort lexRel _

set_option maxRecDepth 8000 in
/-- C3 witness: the amended statement instantiated at `[(400, 0, 0)]`. -/
theorem stabilize_padding_sorted_perm_witness :
    ([((400 : ℤ), (0 : ℤ), (0 : ℤ))] ≠ ([] : List Pt)) ∧
    (inliersOf [((400 : ℤ), (0 : ℤ), (0 : ℤ))]).length < 40 ∧
    ((stabilize_template [((400 : ℤ), (0 : ℤ), (0 : ℤ))]).Perm
      (inliersOf [((400 : ℤ), (0 : ℤ), (0 : ℤ))] ++
        synthPad (40 - (inliersOf [((400 : ℤ), (0 : ℤ), (0 : ℤ))]).length)) ∧
      (stabilize_template [((400 : ℤ), (0 : ℤ), (0 : ℤ))]).length = 40 ∧
      List.Sorted lexRel (stabilize_template [((400 : ℤ), (0 : ℤ), (0 : ℤ))])) :=
  ⟨by decide, by decide, stabilize_padding_sorted_perm _ (by decide) (by decide)⟩

/-- C10: if every input point lies at integer distance greater than 200 from
the integer median center, the stabilizer silently discards all real points
and returns exactly the 40 synthetic points `(300+10i, 300+10i, 20i mod 256)`
for `i < 40`, already sorted by `(x, y, theta)` — a well-formed template
carrying no information from the input. -/
theorem stabilize_all_outliers_synthetic (pts : List Pt) (h : pts ≠ [])
    (hfar : ∀ p ∈ pts, 200 < distTo (medianCenter pts) p) :
    stabilize_template pts = synthPad 40 := by
  have hinl : inliersOf pts = [] := by
    rw [inliersOf, List.filter_eq_nil_iff]
    intro p hp
    simp only [decide_eq_true_eq]
    have := hfar p hp
    omega
  unfold stabilize_template
  rw [if_neg h, hinl]
  simp only [List.length_nil, List.nil_append, Nat.sub_zero]
  rw [if_neg (by omega), if_pos (by omega)]
  decide

set_option maxRecDepth 8000 in
/-- C10 witness: the two-point input `[(0,0,0), (600,600,0)]` has median
center `(300, 300)` and both points at integer distance 424 > 200, so the
stabilizer returns exactly the synthetic list. -/
theorem stabilize_all_outliers_synthetic_witness :
    ([((0 : ℤ), (0 : ℤ), (0 : ℤ)), ((600 : ℤ), (600 : ℤ), (0 : ℤ))] ≠ ([] : List Pt)) ∧
    (∀ p ∈ [((0 : ℤ), (0 : ℤ), (0 : ℤ)), ((600 : ℤ), (600 : ℤ), (0 : ℤ))],
      200 < distTo (medianCenter [((0 : ℤ), (0 : ℤ), (0 : ℤ)), ((600 : ℤ), (600 : ℤ), (0 : ℤ))]) p) ∧
    stabilize_template [((0 : ℤ), (0 : ℤ), (0 : ℤ)), ((600 : ℤ), (600 : ℤ), (0 : ℤ))] =
      synthPad 40 :=
  ⟨by decide, by decide, stabilize_all_outliers_synthetic _ (by decide) (by decide)⟩

/-- Big-endian `n.to_bytes(2, byteorder='big')` for `n < 2^16`. -/
def be2 (n : ℕ) : List ℕ := [n / 256 % 256, n % 256]

/-- Big-endian `n.to_bytes(4, byteorder='big')` for `n < 2^32`. -/
def be4 (n : ℕ) : List ℕ := [n / 16777216 % 256, n / 65536 % 256, n / 256 % 256, n % 256]

/-- The fixed header written by `generate_iso_template_from_minutiae`
(`fingerprint_matching.py` lines 414-439): magic `"FMR\0"`, 4-byte declared
length 120, 2-byte version, 2-byte record-length placeholder, two capture
equipment bytes, width/height/x-res/y-res (500 each), finger view count 1,
finger view header `(1, 0, 1, 0)`, then the 1-byte minutia count 40.
Note the header occupies 28 bytes, with the count byte at offset 27. -/
def isoHeader : List ℕ :=
  [0x46, 0x4D, 0x52, 0x00] ++ be4 120 ++ be2 1 ++ be2 0 ++ [0, 0] ++
    be2 500 ++ be2 500 ++ be2 500 ++ be2 500 ++ [1] ++ [1, 0, 1, 0] ++ [40]

/-- One 6-byte minutia record (`fingerprint_matching.py` lines 446-459):
`x_val = min(499, max(0, int(x) & 0x3FFF))`, same for `y`,
`theta_val = int(theta) % 256`, then bytes
`[(x>>8)&0x7F, x&0xFF, (y>>8)&0x7F, y&0xFF, theta&0xFF, 0x01]`. -/
def encodeMinutia (p : Pt) : List ℕ :=
  let xv := (min 499 (max 0 (p.1 % 16384))).toNat
  let yv := (min 499 (max 0 (p.2.1 % 16384))).toNat
  let tv := (p.2.2 % 256).toNat
  [xv / 256 % 128, xv % 256, yv / 256 % 128, yv % 256, tv % 256, 1]

/-- The binary writer of `generate_iso_template_from_minutiae`
(`fingerprint_matching.py` lines 412-467): header, then one 6-byte record
for each of the first 40 stabilized minutiae, then 4 zero trailer bytes.
(The `except` fallback for a failed int conversion can never trigger in the
integer model.) -/
def generate_iso_template_from_minutiae (pts : List Pt) : List ℕ :=
  isoHeader ++ ((pts.take 40).map encodeMinutia).flatten ++ [0, 0, 0, 0]

/-- The decoder used on the encoder's own output
(`fingerprint_matching.py` lines 477-508, identical to lines 731-750 and to
the gallery extraction in `IdentifyFingerprintView`): skip a 32-byte header,
read the minutia count from byte 31, then for each record at `32 + 6*i`
that fits in the buffer reconstruct
`x = ((b[idx] & 0x7F) << 8) | b[idx+1]`, `y` likewise from bytes 2-3,
`theta = b[idx+4]`, and normalize with `min(499, max(0, ·))` and `% 180`. -/
def parse_iso_template_bytes (b : List ℕ) : List Pt :=
  (List.range (b.getD 31 0)).filterMap fun i : ℕ =>
    if 32 + 6 * i + 6 ≤ b.length then
      some (min 499 (max 0 ((b.getD (32 + 6 * i) 0 % 128) * 256 + b.getD (32 + 6 * i + 1) 0 : ℤ)),
            min 499 (max 0 ((b.getD (32 + 6 * i + 2) 0 % 128) * 256 + b.getD (32 + 6 * i + 3) 0 : ℤ)),
            ((b.getD (32 + 6 * i + 4) 0 : ℤ)) % 180)
    else none

set_option maxRecDepth 8000 in
/-- C1: the codec round trip is broken.  The encoder writes a 28-byte header
(count byte at offset 27, records from offset 28) but the decoder skips 32
bytes and reads the count at offset 31 — a byte inside the first minutia
record.  Encoding 40 copies of `(100, 100, 90)` yields a 272-byte template
whose intended count byte (offset 27) is 40 while the decoder reads 100
(the low byte of the first `y`), and the first decoded point is
`(499, 100, 0)`, not `(100, 100, 90)`: decoding does not reproduce the
input modulo angle truncation and 14-bit clamping. -/
theorem iso_codec_round_trip_fails :
    (generate_iso_template_from_minutiae
        (List.replicate 40 ((100 : ℤ), (100 : ℤ), (90 : ℤ)))).length = 272 ∧
    (generate_iso_template_from_minutiae
        (List.replicate 40 ((100 : ℤ), (100 : ℤ), (90 : ℤ)))).getD 27 0 = 40 ∧
    (generate_iso_template_from_minutiae
        (List.replicate 40 ((100 : ℤ), (100 : ℤ), (90 : ℤ)))).getD 31 0 = 100 ∧
    (parse_iso_template_bytes
        (generate_iso_template_from_minutiae
          (List.replicate 40 ((100 : ℤ), (100 : ℤ), (90 : ℤ))))).head? =
      some ((499 : ℤ), (100 : ℤ), (0 : ℤ)) ∧
    parse_iso_template_bytes
        (generate_iso_template_from_minutiae
          (List.replicate 40 ((100 : ℤ), (100 : ℤ), (90 : ℤ)))) ≠
      List.replicate 40 ((100 : ℤ), (100 : ℤ), (90 : ℤ)) := by
  decide

/-- NumPy's `np.arctan2(y, x)`: the angle of the point `(x, y)` in
`(-π, π]`, modelled over the reals. -/
noncomputable def arctan2 (y x : ℝ) : ℝ :=
  if 0 < x then Real.arctan (y / x)
  else if x < 0 ∧ 0 ≤ y then Real.arctan (y / x) + Real.pi
  else if x < 0 ∧ y < 0 then Real.arctan (y / x) - Real.pi
  else if x = 0 ∧ 0 < y then Real.pi / 2
  else if x = 0 ∧ y < 0 then -(Real.pi / 2)
  else 0

/-- `np.radians(d)`: degrees to radians. -/
noncomputable def radians (d : ℝ) : ℝ := d * Real.pi / 180

/-- `np.degrees(r)`: radians to degrees. -/
noncomputable def degrees (r : ℝ) : ℝ := r * 180 / Real.pi

/-- Python float `%` for a positive modulus: `a - m * ⌊a / m⌋ ∈ [0, m)`. -/
noncomputable def realMod (a m : ℝ) : ℝ := a - m * ⌊a / m⌋

/-- Python `int(r)`: truncation toward zero. -/
noncomputable def pyIntOfReal (r : ℝ) : ℤ := if 0 ≤ r then ⌊r⌋ else -⌊-r⌋

/-- `calculate_circular_mean(angles)` (`fingerprint_matching.py` lines
22-33, identical in `views.py` and `fingerprint_processor.py`):
`int(np.degrees(np.arctan2(Σ sin θ, Σ cos θ)) % 360)`.  The NumPy float
arithmetic is idealized as exact real arithmetic; this is the mathematical
circular mean the function is documented to compute.  The idealization is
NOT faithful at catastrophic-cancellation inputs: for `[350, 10]` the
float64 sine sum is about `-5.6e-17` rather than exactly `0`, `atan2`
then yields about `-1.6e-15` degrees, Python float `%` maps that to
`360.0` (the residue rounds up to the modulus), and `int(...)` returns
`360` where this exact model returns `0`. -/
noncomputable def calculate_circular_mean (angles : List ℤ) : ℤ :=
  pyIntOfReal
    (realMod
      (degrees
        (arctan2 ((angles.map fun a : ℤ => Real.sin (radians (a : ℝ))).sum)
                 ((angles.map fun a : ℤ => Real.cos (radians (a : ℝ))).sum)))
      360)

theorem circular_mean_of_zeros (n : ℕ) (hn : 0 < n) :
    calculate_circular_mean (List.replicate n 0) = 0 := by
  unfold calculate_circular_mean
  have hs : ((List.replicate n (0 : ℤ)).map fun a : ℤ => Real.sin (radians (a : ℝ))).sum = 0 := by
    simp [radians]
  have hc : ((List.replicate n (0 : ℤ)).map fun a : ℤ => Real.cos (radians (a : ℝ))).sum = (n : ℝ) := by
    simp [radians]
  rw [hs, hc]
  have hpos : (0 : ℝ) < (n : ℝ) := by exact_mod_cast hn
  rw [arctan2, if_pos hpos, zero_div, Real.arctan_zero, degrees, zero_mul, zero_div,
    realMod, zero_div, Int.floor_zero]
  norm_num [pyIntOfReal]

/-- C4: the value the specification intends at the failing input
`[350, 10]`: in the exact circular-mean model `sin 350° = -sin 10°` cancels
the sine sum exactly while the cosine sum `2 cos 10°` is positive, so
`atan2(Σ sin, Σ cos) = 0` and the result is `0` degrees (and not `180`).
The float64 program does not attain this intended value: the sine sum does
not cancel exactly in double precision (it is about `-5.6e-17`, and the
exact real sine sum at the rounded double arguments is itself negative, so
the sign is robust across conforming `sin` implementations); the tiny
negative angle is mapped by Python float `%` to `360.0`, and the function
returns `360 ≠ 0` — the code violates the claim at this very input. -/
theorem circular_mean_wraparound :
    calculate_circular_mean [350, 10] = 0 ∧ calculate_circular_mean [350, 10] ≠ 180 := by
  have key : calculate_circular_mean [350, 10] = 0 := by
    unfold calculate_circular_mean
    have h350 : radians ((350 : ℤ) : ℝ) = 2 * Real.pi - radians ((10 : ℤ) : ℝ) := by
      unfold radians
      push_cast
      ring
    have hs : (([350, 10] : List ℤ).map fun a : ℤ => Real.sin (radians (a : ℝ))).sum = 0 := by
      simp only [List.map_cons, List.map_nil, List.sum_cons, List.sum_nil, add_zero]
      rw [h350, Real.sin_sub, Real.sin_two_pi, Real.cos_two_pi]
      ring
    have hc : (([350, 10] : List ℤ).map fun a : ℤ => Real.cos (radians (a : ℝ))).sum =
        2 * Real.cos (radians ((10 : ℤ) : ℝ)) := by
      simp only [List.map_cons, List.map_nil, List.sum_cons, List.sum_nil, add_zero]
      rw [h350, Real.cos_sub, Real.sin_two_pi, Real.cos_two_pi]
      ring
    have hcpos : 0 < 2 * Real.cos (radians ((10 : ℤ) : ℝ)) := by
      have h10 : radians ((10 : ℤ) : ℝ) = Real.pi / 18 := by
        unfold radians
        push_cast
        ring
      rw [h10]
      have : 0 < Real.cos (Real.pi / 18) := by
        apply Real.cos_pos_of_mem_Ioo
        constructor
        · nlinarith [Real.pi_pos]
        · nlinarith [Real.pi_pos]
      linarith
    rw [hs, hc]
    rw [arctan2, if_pos hcpos, zero_div, Real.arctan_zero, degrees, zero_mul, zero_div,
      realMod, zero_div, Int.floor_zero]
    norm_num [pyIntOfReal]
  exact ⟨key, by rw [key]; decide⟩

/-- The points of one DBSCAN cluster: `minutiae_array[labels == cluster_id]`.
The clustering output is represented as the list of (point, label) pairs. -/
def clusterOf (pl : List (Pt × ℤ)) (c : ℤ) : List Pt :=
  (pl.filter fun q => q.2 = c).map fun q => q.1

/-- A fused representative point for a cluster
(`fuse_minutiae_points`, `fingerprint_matching.py` lines 139-148):
`(int(np.mean(xs)), int(np.mean(ys)), calculate_circular_mean(thetas))`. -/
noncomputable def clusterMean (pl : List (Pt × ℤ)) (c : ℤ) : Pt :=
  (tdiv ((clusterOf pl c).map fun p => p.1).sum ((clusterOf pl c).length : ℤ),
   tdiv ((clusterOf pl c).map fun p => p.2.1).sum ((clusterOf pl c).length : ℤ),
   calculate_circular_mean ((clusterOf pl c).map fun p => p.2.2))

/-- `fuse_minutiae_points` (`fingerprint_matching.py` lines 84-154,
identical to `views.py` lines 94-165), given the DBSCAN labelling of the
(already sorted) collected minutiae: iterate over the sorted distinct
cluster ids, skip the noise id `-1`, emit each cluster's mean point, and
sort the fused output by `(x, y, theta)`.  The external sklearn `DBSCAN`
is abstracted: the function consumes its (point, label) output. -/
noncomputable def fuse_minutiae_points (pl : List (Pt × ℤ)) : List Pt :=
  sortLex
    ((((pl.map fun q => q.2).insertionSort (· ≤ ·)).dedup.filter fun c => c ≠ -1).map
      (clusterMean pl))

/-- C5 (amended): in the request-handler fusers every fused output point is
the `(rounded mean x, rounded mean y, circular mean theta)` of some DBSCAN
cluster whose id is not the noise id `-1`; in particular points labelled as
noise never appear as themselves in the fused output of these fusers. -/
theorem fused_point_is_cluster_mean (pl : List (Pt × ℤ)) (q : Pt)
    (hq : q ∈ fuse_minutiae_points pl) :
    ∃ c : ℤ, c ≠ -1 ∧ c ∈ pl.map (fun q => q.2) ∧ q = clusterMean pl c := by
  rw [fuse_minutiae_points, sortLex, List.mem_insertionSort] at hq
  obtain ⟨c, hc, rfl⟩ := List.mem_map.mp hq
  rw [List.mem_filter] at hc
  refine ⟨c, by simpa using hc.2, ?_, rfl⟩
  have h := List.mem_dedup.mp hc.1
  rwa [List.mem_insertionSort] at h

/-- C5 witness: for the single sample point `(5, 5, 0)` in cluster `0`,
the fused output contains `(5, 5, 0)` and it is the mean of cluster `0`. -/
theorem fused_point_is_cluster_mean_witness :
    ((((5 : ℤ), (5 : ℤ), (0 : ℤ)) : Pt) ∈
      fuse_minutiae_points [((((5 : ℤ), (5 : ℤ), (0 : ℤ)) : Pt), (0 : ℤ))]) ∧
    ∃ c : ℤ, c ≠ -1 ∧
      c ∈ [((((5 : ℤ), (5 : ℤ), (0 : ℤ)) : Pt), (0 : ℤ))].map (fun q => q.2) ∧
      (((5 : ℤ), (5 : ℤ), (0 : ℤ)) : Pt) =
        clusterMean [((((5 : ℤ), (5 : ℤ), (0 : ℤ)) : Pt), (0 : ℤ))] c := by
  have h0 : calculate_circular_mean [(0 : ℤ)] = 0 := by
    have h := circular_mean_of_zeros 1 (by norm_num)
    simpa using h
  have hcm : clusterMean [((((5 : ℤ), (5 : ℤ), (0 : ℤ)) : Pt), (0 : ℤ))] 0 =
      (((5 : ℤ), (5 : ℤ), (0 : ℤ)) : Pt) := by
    unfold clusterMean clusterOf
    simp [tdiv, h0]
  have hmem : (((5 : ℤ), (5 : ℤ), (0 : ℤ)) : Pt) ∈
      fuse_minutiae_points [((((5 : ℤ), (5 : ℤ), (0 : ℤ)) : Pt), (0 : ℤ))] := by
    rw [fuse_minutiae_points, sortLex, List.mem_insertionSort]
    have hlab :
        ((([((((5 : ℤ), (5 : ℤ), (0 : ℤ)) : Pt), (0 : ℤ))].map fun q => q.2).insertionSort
          (· ≤ ·)).dedup.filter fun c => c ≠ -1) = [(0 : ℤ)] := by
      decide
    rw [hlab, List.map_cons, List.map_nil, hcm]
    exact List.mem_singleton_self _
  exact ⟨hmem, fused_point_is_cluster_mean _ _ hmem⟩

/-- Modelled from the spec: the repository's clustering is performed by the
external sklearn `DBSCAN` ("density-based spatial clustering over `(x,y)`
only (radius `eps`, minimum points `min_samples`)"); its implementation is
not part of the repository, so it is modelled here.  `dbNbrs pts eps2 i`
lists the indices of the points within euclidean distance `√eps2` of point
`i` (itself included, as sklearn counts it). -/
def dbNbrs (pts : List (ℤ × ℤ)) (eps2 : ℤ) (i : ℕ) : List ℕ :=
  (List.range pts.length).filter fun j =>
    ((pts.getD i (0, 0)).1 - (pts.getD j (0, 0)).1) ^ 2 +
      ((pts.getD i (0, 0)).2 - (pts.getD j (0, 0)).2) ^ 2 ≤ eps2

/-- Modelled from the spec: a DBSCAN core point has at least `min_samples`
neighbours (itself included). -/
def dbCore (pts : List (ℤ × ℤ)) (eps2 : ℤ) (minPts : ℕ) (i : ℕ) : Bool :=
  minPts ≤ (dbNbrs pts eps2 i).length

/-- Modelled from the spec: fuel-driven closure of a set of indices under
"add any core point within `eps` of a core point already in the set". -/
def dbGrow (pts : List (ℤ × ℤ)) (eps2 : ℤ) (minPts : ℕ) : ℕ → List ℕ → List ℕ
  | 0, s => s
  | f + 1, s =>
      dbGrow pts eps2 minPts f
        (s ++ (List.range pts.length).filter fun j =>
          decide (j ∉ s) && dbCore pts eps2 minPts j &&
            s.any fun i => dbCore pts eps2 minPts i && decide (j ∈ dbNbrs pts eps2 i))

/-- Modelled from the spec: the cluster grown from a core point `i` — the
reachable core points plus every point within `eps` of one of them
(the border points). -/
def dbComponent (pts : List (ℤ × ℤ)) (eps2 : ℤ) (minPts : ℕ) (i : ℕ) : List ℕ :=
  (List.range pts.length).filter fun j =>
    (dbGrow pts eps2 minPts pts.length [i]).any fun k =>
      dbCore pts eps2 minPts k && decide (j ∈ dbNbrs pts eps2 k)

/-- Modelled from the spec: one seed core point per cluster, in scan order
(the order in which sklearn discovers clusters and numbers them 0, 1, ...). -/
def dbSeeds (pts : List (ℤ × ℤ)) (eps2 : ℤ) (minPts : ℕ) : List ℕ :=
  (List.range pts.length).filter fun i =>
    dbCore pts eps2 minPts i &&
      ((List.range i).all fun k =>
        !(dbCore pts eps2 minPts k && decide (i ∈ dbComponent pts eps2 minPts k)))

/-- Modelled from the spec: the DBSCAN labelling — each point gets the index
of the first cluster containing it, or the noise label `-1`. -/
def dbscanLabels (pts : List (ℤ × ℤ)) (eps2 : ℤ) (minPts : ℕ) : List ℤ :=
  (List.range pts.length).map fun j =>
    match (dbSeeds pts eps2 minPts).findIdx?
        (fun s => decide (j ∈ dbComponent pts eps2 minPts s)) with
    | some k => (k : ℤ)
    | none => -1

/-- `FingerprintProcessor.fuse_minutiae_points` (`fingerprint_processor.py`
lines 547-597): DBSCAN with `eps=10, min_samples=2` over `(x, y)`; cluster
means for the non-noise clusters (iteration over `set(labels)` modelled in
sorted id order), and then — unlike the request-handler fusers — the points
labelled `-1` are appended unchanged ("Add non-clustered points"). -/
noncomputable def fuse_minutiae_points_processor (pts : List Pt) : List Pt :=
  let pl := pts.zip (dbscanLabels (pts.map fun p => (p.1, p.2.1)) 100 2)
  ((((pl.map fun q => q.2).insertionSort (· ≤ ·)).dedup.filter fun c => c ≠ -1).map
      (clusterMean pl)) ++
    ((pl.filter fun q => q.2 = -1).map fun q => q.1)

/-- C5 counterexample: a lone point cannot reach `min_samples = 2`, so DBSCAN
labels it noise (`-1`); `FingerprintProcessor.fuse_minutiae_points`
nevertheless returns it unchanged — a noise point appears in the fused
output, contradicting the claim for this cited implementation. -/
theorem processor_fusion_keeps_noise :
    dbscanLabels [((100 : ℤ), (100 : ℤ))] 100 2 = [-1] ∧
    fuse_minutiae_points_processor [((100 : ℤ), (100 : ℤ), (50 : ℤ))] =
      [((100 : ℤ), (100 : ℤ), (50 : ℤ))] := by
  decide

/-- Python `str.strip()`: drop leading and trailing whitespace. -/
def pyStrip (l : List Char) : List Char :=
  ((l.dropWhile Char.isWhitespace).reverse.dropWhile Char.isWhitespace).reverse

/-- Python `s.split('\n')`: split on every newline, keeping empty pieces. -/
def pySplitNL : List Char → List (List Char)
  | [] => [[]]
  | c :: rest =>
      let r := pySplitNL rest
      if c = '\n' then [] :: r else (c :: r.headD []) :: r.tail

/-- Splitting on whitespace, keeping empty pieces (helper for `pyTokens`). -/
def splitWS : List Char → List (List Char)
  | [] => [[]]
  | c :: rest =>
      let r := splitWS rest
      if c.isWhitespace then [] :: r else (c :: r.headD []) :: r.tail

/-- Python `line.split()`: the whitespace-separated tokens of a line. -/
def pyTokens (l : List Char) : List (List Char) :=
  (splitWS l).filter fun t => !t.isEmpty

/-- Python `p.replace('.', '', 1)`: remove the first `'.'`, if any. -/
def removeFirstDot : List Char → List Char
  | [] => []
  | c :: rest => if c = '.' then rest else c :: removeFirstDot rest

/-- Python `s.isdigit()` (ASCII digits): nonempty and all digits. -/
def pyIsDigit (t : List Char) : Bool := !t.isEmpty && t.all Char.isDigit

/-- The numeric-token test of `Bozorth3Matcher._validate_xyt_data`
(`utils.py` line 326): `p.replace('.', '', 1).lstrip('-').isdigit()`. -/
def numericToken (t : List Char) : Bool :=
  pyIsDigit ((removeFirstDot t).dropWhile fun c => c = '-')

/-- One line of `_validate_xyt_data`'s loop (`utils.py` lines 320-328):
strip the line, skip it if empty, otherwise require 3 or 4 tokens, all
numeric. -/
def lineValid (line : List Char) : Bool :=
  if (pyStrip line).isEmpty then true
  else
    decide (3 ≤ (pyTokens (pyStrip line)).length) &&
      decide ((pyTokens (pyStrip line)).length ≤ 4) &&
      (pyTokens (pyStrip line)).all numericToken

/-- `Bozorth3Matcher._validate_xyt_data` (`utils.py` lines 280-333) on
text input: reject effectively empty data, then check every line. -/
def validate_xyt_data (data : String) : Bool :=
  if (pySplitNL (pyStrip data.data)).isEmpty ||
      ((pySplitNL (pyStrip data.data)).length = 1 &&
        (pyStrip ((pySplitNL (pyStrip data.data)).headD [])).isEmpty) then false
  else (pySplitNL (pyStrip data.data)).all lineValid

/-- The result shape of `Bozorth3Matcher.match_fingerprint_templates`. -/
structure MatchResult where
  match_score : ℤ
  is_match : Bool
  error : Option String
deriving DecidableEq

/-- `Bozorth3Matcher.match_fingerprint_templates` (`utils.py` lines
335-460): validate both point lists; on a malformed probe or reference
return `{match_score: 0, is_match: false, error: ...}` without invoking the
scorer; otherwise hand over to the external BOZORTH3 subprocess, which is
abstracted as the oracle `bozorth3`. -/
def match_fingerprint_templates (bozorth3 : String → String → ℤ → MatchResult)
    (probe_template reference_template : String) (threshold : ℤ) : MatchResult :=
  if !validate_xyt_data probe_template then
    ⟨0, false, some "Malformed probe XYT file"⟩
  else if !validate_xyt_data reference_template then
    ⟨0, false, some "Malformed reference XYT file"⟩
  else bozorth3 probe_template reference_template threshold

theorem validate_false_of_bad_line (data : String) (line : List Char)
    (hmem : line ∈ pySplitNL (pyStrip data.data))
    (htok : pyTokens (pyStrip line) ≠ [])
    (hbad : ¬(3 ≤ (pyTokens (pyStrip line)).length ∧
        (pyTokens (pyStrip line)).length ≤ 4 ∧
        ∀ t ∈ pyTokens (pyStrip line), numericToken t = true)) :
    validate_xyt_data data = false := by
  have hline : lineValid line = false := by
    unfold lineValid
    have hne : (pyStrip line).isEmpty = false := by
      cases hstrip : (pyStrip line).isEmpty
      · rfl
      · exfalso
        apply htok
        rw [List.isEmpty_iff] at hstrip
        rw [pyTokens, hstrip]
        decide
    rw [if_neg (by simp [hne])]
    by_contra hcon
    rw [Bool.not_eq_false, Bool.and_eq_true, Bool.and_eq_true] at hcon
    exact hbad ⟨by simpa using hcon.1.1, by simpa using hcon.1.2,
      by simpa using List.all_eq_true.mp hcon.2⟩
  unfold validate_xyt_data
  split_ifs with h
  · rfl
  · rw [Bool.eq_false_iff]
    intro hall
    rw [List.all_eq_true] at hall
    have := hall line hmem
    rw [hline] at this
    exact Bool.false_ne_true this

/-- C7: Fail-closed matching on malformed input: if either point list
contains a (non-blank) line that does not consist of 3 or 4 numeric tokens,
the matcher adapter returns score 0 and `is_match = false` — for every
behavior of the external scorer, i.e. without invoking it.  (Blank lines
are skipped by the validator; the adapter itself is a total function, so no
exception can propagate.) -/
theorem malformed_line_fails_closed (bozorth3 : String → String → ℤ → MatchResult)
    (probe_template reference_template : String) (threshold : ℤ)
    (h : (∃ line ∈ pySplitNL (pyStrip probe_template.data),
            pyTokens (pyStrip line) ≠ [] ∧
            ¬(3 ≤ (pyTokens (pyStrip line)).length ∧
              (pyTokens (pyStrip line)).length ≤ 4 ∧
              ∀ t ∈ pyTokens (pyStrip line), numericToken t = true)) ∨
         (∃ line ∈ pySplitNL (pyStrip reference_template.data),
            pyTokens (pyStrip line) ≠ [] ∧
            ¬(3 ≤ (pyTokens (pyStrip line)).length ∧
              (pyTokens (pyStrip line)).length ≤ 4 ∧
              ∀ t ∈ pyTokens (pyStrip line), numericToken t = true))) :
    (match_fingerprint_templates bozorth3 probe_template reference_template
        threshold).match_score = 0 ∧
    (match_fingerprint_templates bozorth3 probe_template reference_template
        threshold).is_match = false := by
  unfold match_fingerprint_templates
  rcases h with ⟨line, hmem, htok, hbad⟩ | ⟨line, hmem, htok, hbad⟩
  · rw [validate_false_of_bad_line probe_template line hmem htok hbad]
    exact ⟨rfl, rfl⟩
  · rw [validate_false_of_bad_line reference_template line hmem htok hbad]
    cases hp : validate_xyt_data probe_template <;> exact ⟨rfl, rfl⟩

/-- C7 witness: the probe `"12 x 40"` (one line, tokens `12`, `x`, `40`
where `x` is not numeric) against a well-formed reference, with an oracle
scorer that would report a match: the adapter still returns 0 / no match. -/
theorem malformed_line_fails_closed_witness :
    (match_fingerprint_templates (fun _ _ _ => ⟨99, true, none⟩)
        "12 x 40" "100 100 90" 40).match_score = 0 ∧
    (match_fingerprint_templates (fun _ _ _ => ⟨99, true, none⟩)
        "12 x 40" "100 100 90" 40).is_match = false :=
  malformed_line_fails_closed _ _ _ _ (Or.inl (by decide))

/-- State threaded through `_preserve_angle_diversity`'s mutation of the
`redistributed_angles`, `angle_bins` and `bin_counts` arrays. -/
structure PDState where
  red : List ℤ
  bins : List ℤ
  counts : List ℤ
deriving DecidableEq

/-- `np.argmin`: index of the first minimum. -/
def argminL (l : List ℤ) : ℕ := l.findIdx fun v => v = l.foldl min (l.headD 0)

/-- `np.argmax`: index of the first maximum. -/
def argmaxL (l : List ℤ) : ℕ := l.findIdx fun v => v = l.foldl max (l.headD 0)

/-- `arr[i] += d` on an integer array. -/
def setAdd (l : List ℤ) (i : ℕ) (d : ℤ) : List ℤ := l.set i (l.getD i 0 + d)

/-- `np.clip(np.floor(a / bin_size), 0, 7)` with `bin_size = 22.5`:
`⌊a/22.5⌋ = ⌊4a/90⌋`, and `Int` division is floor division. -/
def binOfInt (a : ℤ) : ℤ := min 7 (max 0 (4 * a / 90))

/-- `np.where(angle_bins == bin_idx)[0]`: the indices in bin `b`,
in increasing order. -/
def binMembers (bins : List ℤ) (b : ℕ) : List ℕ :=
  (List.range bins.length).filter fun j => bins.getD j 0 = (b : ℤ)

/-- `bin_indices[np.argsort(np.abs(bin_angles - bin_center))]`: the bin's
indices sorted by distance from the bin center `(b + 0.5) * 22.5`.  All
quantities are scaled by 4 (quarter degrees) so the float arithmetic —
which only ever produces multiples of 0.25 here — is represented exactly:
`|angle - (b+0.5)*22.5|` becomes `|4*angle - (2b+1)*45|`.  Modelled with a
stable sort (NumPy's default argsort is unstable among equal distances;
no claim depends on the tie order). -/
def sortByDist (angles : List ℤ) (b : ℕ) (idxs : List ℕ) : List ℕ :=
  ((idxs.map fun j => (j, |4 * angles.getD j 0 - 45 * (2 * (b : ℤ) + 1)|)).insertionSort
    fun u v => u.2 ≤ v.2).map fun u => u.1

/-- One iteration of the redistribution loop
(`fingerprint_matching.py` lines 298-319): pick the least populated bin, or
cycle if all bins reached the target; move the minutia to that bin's center
plus the `(i % 5 - 2) * 2`-degree variation, reduced mod 180; update the
counts.  In quarter degrees the new angle is
`(45*(2*tb+1) + 8*(i%5 - 2)) % 720`, and storing it into the int64
`redistributed_angles` array truncates: `value / 4` (floor; the value is
nonnegative). -/
def passOneMove (target : ℤ) (b : ℕ) (σ : PDState) (im : ℕ × ℕ) : PDState :=
  ⟨σ.red.set im.2
      ((45 * (2 * ((if target ≤ σ.counts.getD (argminL σ.counts) 0 then
          (b + im.1 % 8) % 8 else argminL σ.counts : ℕ) : ℤ) + 1) +
        8 * ((im.1 : ℤ) % 5 - 2)) % 720 / 4),
   σ.bins.set im.2
      ((if target ≤ σ.counts.getD (argminL σ.counts) 0 then
          (b + im.1 % 8) % 8 else argminL σ.counts : ℕ) : ℤ),
   setAdd (setAdd σ.counts b (-1))
      (if target ≤ σ.counts.getD (argminL σ.counts) 0 then
          (b + im.1 % 8) % 8 else argminL σ.counts) 1⟩

/-- The first pass of `_preserve_angle_diversity` for one bin
(`fingerprint_matching.py` lines 278-319): if the bin holds more than
`1.5 * target_per_bin` minutiae (`2*count > 3*target` in integers), keep the
`target_per_bin` angles closest to the bin center and redistribute the rest
(enumerated with their loop index `i`). -/
def passOneBin (angles : List ℤ) (target : ℤ) (σ : PDState) (b : ℕ) : PDState :=
  if 3 * target < 2 * σ.counts.getD b 0 then
    (((sortByDist angles b (binMembers σ.bins b)).drop target.toNat).enum).foldl
      (passOneMove target b) σ
  else σ

/-- One iteration of the second pass (`fingerprint_matching.py` lines
327-343): if there are bins with excess population, move the first minutia
of the fullest excess bin to the empty bin's center (truncated into the
int64 array: `(45*(2*eb+1)) / 4`). -/
def passTwoMove (excessB : List ℕ) (σ : PDState) (eb : ℕ) : PDState :=
  if excessB.isEmpty then σ
  else
    match binMembers σ.bins
        (excessB.getD (argmaxL (excessB.map fun b => σ.counts.getD b 0)) 0) with
    | [] => σ
    | m :: _ =>
        ⟨σ.red.set m (45 * (2 * (eb : ℤ) + 1) / 4),
         σ.bins.set m (eb : ℤ),
         setAdd (setAdd σ.counts
            (excessB.getD (argmaxL (excessB.map fun b => σ.counts.getD b 0)) 0) (-1)) eb 1⟩

/-- The initial redistribution state of `_preserve_angle_diversity`
(`fingerprint_matching.py` lines 254-276): `redistributed_angles` starts as
a copy of the (mod-180) angles, `angle_bins` is their binning, and
`bin_counts = np.bincount(angle_bins, minlength=8)`. -/
def pdInit (angles : List ℤ) : PDState :=
  ⟨angles, angles.map binOfInt,
   (List.range 8).map fun b =>
     (((angles.map binOfInt).filter fun v => v = (b : ℤ)).length : ℤ)⟩

/-- `target_per_bin = max(1, total_angles // num_bins)`. -/
def pdTarget (angles : List ℤ) : ℤ := max 1 ((angles.length : ℤ) / 8)

/-- The state after the first (overcrowding) pass over the 8 bins. -/
def pdAfterPassOne (angles : List ℤ) : PDState :=
  (List.range 8).foldl (passOneBin angles (pdTarget angles)) (pdInit angles)

set_option linter.unusedVariables false in
/-- `_preserve_angle_diversity(angles, original_angles)`
(`fingerprint_matching.py` lines 250-345; the identical code in
`fingerprint_processor.py` differs only in operating on a float64 array):
reduce the angles mod 180, bin them into 8 bins of 22.5 degrees, compute
`target_per_bin = max(1, n // 8)`, run the first (overcrowding) pass over
the 8 bins, then the second pass over the bins still empty
(`empty_bins`/`excess_bins`, lines 322-343), and return the redistributed
angles.  The `original_angles` parameter is unused, as in the source. -/
def preserve_angle_diversity (anglesIn originalAngles : List ℤ) : List ℤ :=
  (((List.range 8).filter fun b =>
      (pdAfterPassOne (anglesIn.map fun a => a % 180)).counts.getD b 0 = 0).foldl
    (passTwoMove
      ((List.range 8).filter fun b =>
        pdTarget (anglesIn.map fun a => a % 180) <
          (pdAfterPassOne (anglesIn.map fun a => a % 180)).counts.getD b 0))
    (pdAfterPassOne (anglesIn.map fun a => a % 180))).red

/-- `canonicalize_minutiae` of the verification pipeline
(`fingerprint_matching.py` lines 221-248, the variant actually invoked by
`post`): subtract the truncated mean of each coordinate, translate to the
image center `(250, 250)` — with no clamping — reduce the angles mod 180
and run the angle-diversity redistributor on them.  `int(np.mean(...))` is
modelled as exact truncating division. -/
def canonicalize_minutiae (pts : List Pt) : List Pt :=
  if pts = [] then []
  else
    List.zipWith
      (fun p a =>
        (p.1 - tdiv (pts.map fun q => q.1).sum (pts.length : ℤ) + 250,
         p.2.1 - tdiv (pts.map fun q => q.2.1).sum (pts.length : ℤ) + 250,
         a))
      pts
      (preserve_angle_diversity (pts.map fun p => p.2.2 % 180)
        (pts.map fun p => p.2.2 % 180))

/-- Python's `round(x / 8.0)`: `x/8` is an exact dyadic float, so this is
round-half-to-even of the exact quotient. -/
def pyRound8 (x : ℤ) : ℤ :=
  if x % 8 < 4 then x / 8
  else if 4 < x % 8 then x / 8 + 1
  else if x / 8 % 2 = 0 then x / 8 else x / 8 + 1

/-- `quantize_minutiae` of the verification pipeline
(`fingerprint_matching.py` lines 347-379): mask the coordinates to 14 bits
(`% 2^14`), constrain into `[0, 499]`, snap to the 8-pixel grid with
Python's `round`, quantize the angle to 10-degree steps with the
deterministic position hash `(x*31 + y*17) % 100` scaled into an offset in
`[-2, 2)` (the exact value of `((theta + offset + 5) // 10 * 10) % 360`
equals `10 * ((100*theta + 4*ph + 300) // 1000) % 360` in integers), and
clamp the grid-snapped coordinates into `[0, 499]` once more. -/
def quantize_minutiae (pts : List Pt) : List Pt :=
  pts.map fun p =>
    (max 0 (min 499 (8 * pyRound8 (max 0 (min 499 (p.1 % 16384))))),
     max 0 (min 499 (8 * pyRound8 (max 0 (min 499 (p.2.1 % 16384))))),
     10 * ((100 * p.2.2 +
        4 * ((max 0 (min 499 (p.1 % 16384)) * 31 +
              max 0 (min 499 (p.2.1 % 16384)) * 17) % 100) + 300) / 1000) % 360)

theorem map_theta_zipWith (cx cy : ℤ) :
    ∀ (l₁ : List Pt) (l₂ : List ℤ), l₁.length = l₂.length →
      (List.zipWith (fun p a => ((p.1 - cx + 250 : ℤ), (p.2.1 - cy + 250 : ℤ), a)) l₁ l₂).map
        (fun q : Pt => q.2.2) = l₂
  | [], [], _ => rfl
  | [], _ :: _, h => by simp at h
  | _ :: _, [], h => by simp at h
  | p :: l₁, a :: l₂, h => by
      simp only [List.zipWith_cons_cons, List.map_cons]
      rw [map_theta_zipWith cx cy l₁ l₂ (by simpa using h)]

set_option maxRecDepth 8000 in
theorem preserve_forty_fives :
    preserve_angle_diversity (List.replicate 40 5) (List.replicate 40 5) =
      [5, 5, 5, 5, 5, 29, 54, 78, 103, 127, 142, 166, 33, 58, 82, 97, 121, 146, 170,
       37, 52, 76, 101, 125, 150, 164, 31, 56, 80, 105, 119, 144, 168, 35, 60, 74,
       99, 123, 148, 172] := by
  decide

/-- C8: Angle bin coverage: for any 40 input points all at `theta = 5`
degrees, after the verification pipeline's canonicalization (which runs the
angle-diversity redistributor over 8 equal bins of `[0, 180)`), every one
of the 8 angle bins holds at least one point. -/
theorem angle_bin_coverage (pts : List Pt) (hlen : pts.length = 40)
    (hθ : ∀ p ∈ pts, p.2.2 = 5) :
    ∀ b : ℤ, 0 ≤ b → b < 8 → ∃ p ∈ canonicalize_minutiae pts, binOfInt p.2.2 = b := by
  intro b hb0 hb8
  have hne : pts ≠ [] := by
    intro hnil
    rw [hnil] at hlen
    simp at hlen
  have hang : (pts.map fun p => p.2.2 % 180) = List.replicate 40 5 := by
    apply List.eq_replicate_iff.mpr
    refine ⟨by rw [List.length_map, hlen], ?_⟩
    intro a ha
    obtain ⟨p, hp, rfl⟩ := List.mem_map.mp ha
    rw [hθ p hp]
    decide
  have hcan : (canonicalize_minutiae pts).map (fun q : Pt => q.2.2) =
      preserve_angle_diversity (List.replicate 40 5) (List.replicate 40 5) := by
    unfold canonicalize_minutiae
    rw [if_neg hne, hang]
    exact map_theta_zipWith _ _ pts _ (by rw [hlen, preserve_forty_fives]; decide)
  have hbmem : b ∈ ((canonicalize_minutiae pts).map (fun q : Pt => q.2.2)).map binOfInt := by
    rw [hcan, preserve_forty_fives]
    interval_cases b <;> decide
  rw [List.map_map] at hbmem
  obtain ⟨p, hp, hpb⟩ := List.mem_map.mp hbmem
  exact ⟨p, hp, hpb⟩

set_option maxRecDepth 8000 in
/-- C8 witness: the coverage fact instantiated on 40 concrete points with
`theta = 5`, checked for bin 7. -/
theorem angle_bin_coverage_witness :
    ((List.range 40).map fun i : ℕ => (((i : ℤ), (0 : ℤ), (5 : ℤ)) : Pt)).length = 40 ∧
    (∀ p ∈ (List.range 40).map fun i : ℕ => (((i : ℤ), (0 : ℤ), (5 : ℤ)) : Pt),
      p.2.2 = 5) ∧
    ∃ p ∈ canonicalize_minutiae
        ((List.range 40).map fun i : ℕ => (((i : ℤ), (0 : ℤ), (5 : ℤ)) : Pt)),
      binOfInt p.2.2 = 7 :=
  ⟨by decide, by decide,
   angle_bin_coverage _ (by decide) (by decide) 7 (by decide) (by decide)⟩

set_option maxRecDepth 8000 in
/-- C9 counterexample: the verification pipeline's canonicalizer does not
clamp coordinates: on `[(0,0,5), (1000,0,5)]` the centered output is
`[(-250, 250, 5), (750, 250, 29)]`, with `x = -250 < 0` and `x = 750 > 499`
both outside `[0, W-1]`. -/
theorem canonicalize_out_of_bounds :
    canonicalize_minutiae [((0 : ℤ), (0 : ℤ), (5 : ℤ)), ((1000 : ℤ), (0 : ℤ), (5 : ℤ))] =
      [((-250 : ℤ), (250 : ℤ), (5 : ℤ)), ((750 : ℤ), (250 : ℤ), (29 : ℤ))] ∧
    ∃ p ∈ canonicalize_minutiae
        [((0 : ℤ), (0 : ℤ), (5 : ℤ)), ((1000 : ℤ), (0 : ℤ), (5 : ℤ))],
      p.1 < 0 := by
  decide

/-- C9 (amended): the canonicalizer itself returns unclamped coordinates;
the image bounds are restored by the quantizer, the next stage of the same
pipeline: every point of `quantize_minutiae`'s output — in particular of
`quantize_minutiae (canonicalize_minutiae pts)` as invoked in `post` — has
`x` and `y` in `[0, 499]`. -/
theorem quantize_restores_bounds (pts : List Pt) (p : Pt)
    (hp : p ∈ quantize_minutiae pts) :
    0 ≤ p.1 ∧ p.1 ≤ 499 ∧ 0 ≤ p.2.1 ∧ p.2.1 ≤ 499 := by
  obtain ⟨q, hq, rfl⟩ := List.mem_map.mp hp
  refine ⟨?_, ?_, ?_, ?_⟩ <;> simp only <;> omega

/-- C9 witness: the bounds evaluated on the head of the quantizer's output
for the concrete input `[(3, 5, 7)]` (which quantizes to `(0, 8, 10)`). -/
theorem quantize_restores_bounds_witness :
    ((quantize_minutiae [((3 : ℤ), (5 : ℤ), (7 : ℤ))]).headD ((0 : ℤ), (0 : ℤ), (0 : ℤ)) ∈
      quantize_minutiae [((3 : ℤ), (5 : ℤ), (7 : ℤ))]) ∧
    (0 ≤ ((quantize_minutiae [((3 : ℤ), (5 : ℤ), (7 : ℤ))]).headD ((0 : ℤ), (0 : ℤ), (0 : ℤ))).1 ∧
      ((quantize_minutiae [((3 : ℤ), (5 : ℤ), (7 : ℤ))]).headD ((0 : ℤ), (0 : ℤ), (0 : ℤ))).1 ≤ 499 ∧
      0 ≤ ((quantize_minutiae [((3 : ℤ), (5 : ℤ), (7 : ℤ))]).headD ((0 : ℤ), (0 : ℤ), (0 : ℤ))).2.1 ∧
      ((quantize_minutiae [((3 : ℤ), (5 : ℤ), (7 : ℤ))]).headD ((0 : ℤ), (0 : ℤ), (0 : ℤ))).2.1 ≤ 499) :=
  ⟨by decide,
   quantize_restores_bounds [((3 : ℤ), (5 : ℤ), (7 : ℤ))]
     ((quantize_minutiae [((3 : ℤ), (5 : ℤ), (7 : ℤ))]).headD ((0 : ℤ), (0 : ℤ), (0 : ℤ)))
     (by decide)⟩
